import Mathlib

/-!
Shallow embedding of the moganth/udemy-actions management-plane API:
the authentication/authorization layer (src/services/auth_service.py,
src/services/db_service.py, src/routes/auth_route.py) and the
Infrastructure Gateway (src/services/docker_service.py,
src/routes/container_route.py), with theorems checking the
natural-language specification against this embedding.

Modelling conventions:
- Python dict-shaped results become Lean structures or the
  `GatewayOutcome` sum (`{"status": ..., "message": ...}` vs `{"error": ...}`).
- A Python function that raises is embedded as `Except String α`
  (`Except.error msg` = an exception with message `msg` escapes the
  function); a function whose `try/except Exception` catches everything
  returns its result type directly.
- Calls into the external container engine / cluster / subprocess layer
  are passed in as explicit `Except EngineFault α` oracle values: the
  outcome the external call would have if the function performs it.
- The MongoDB credential store is a list of user records; wall-clock
  time is an explicit `Nat` parameter (seconds).
-/

namespace UdemyActions

/-- An HTTP error as raised via FastAPI HTTPException: status code and detail. -/
structure HTTPError where
  statusCode : Nat
  detail : String
deriving DecidableEq, Repr

/-- An exception arising from the container engine, cluster client or a
subprocess call, tagged with the Python exception class that the
`except` clauses in docker_service.py discriminate on. -/
inductive EngineFault where
  | apiError (msg : String)
  | imageNotFound (msg : String)
  | calledProcessError (stderr : String)
  | otherError (msg : String)
deriving DecidableEq, Repr

/-- `str(e)` on an engine exception: its message text. -/
def EngineFault.msg : EngineFault → String
  | .apiError m => m
  | .imageNotFound m => m
  | .calledProcessError m => m
  | .otherError m => m

/-- The uniform result dict of a gateway operation:
either a success payload (its message field) or `{"error": msg}`. -/
inductive GatewayOutcome where
  | success (message : String)
  | error (message : String)
deriving DecidableEq, Repr

/-- `"error" in response` on a gateway outcome dict. -/
def GatewayOutcome.hasError : GatewayOutcome → Bool
  | .success _ => false
  | .error _ => true

/-! ## Password hasher

Modelled from the spec: the password hasher is passlib's bcrypt
`CryptContext`, an external library not under src/.  Spec (§4.1):
`hash(plaintext) → digest` salted and one-way, with the contract that
`verify(plaintext, digest) → bool` accepts exactly the digests produced
by `hash` of that plaintext.  A digest is modelled as the salt together
with the plaintext it certifies. -/
structure Digest where
  salt : Nat
  plaintext : String
deriving DecidableEq, Repr

/-- src/services/auth_service.py `get_password_hash` (bcrypt hashing
modelled from the spec, salt made explicit). -/
def get_password_hash (salt : Nat) (password : String) : Digest :=
  ⟨salt, password⟩

/-- src/services/auth_service.py `verify_password` (bcrypt verification
modelled from the spec: accepts exactly the digests of this plaintext). -/
def verify_password (plain_password : String) (hashed_password : Digest) : Bool :=
  plain_password == hashed_password.plaintext

/-! ## Credential store (src/services/db_service.py) -/

/-- A MongoDB user document: `_id`, `username`, `hashed_password`, and an
optional `role` field (documents may predate the role field, hence
`user.get("role", "user")` in auth_service.py). -/
structure UserRecord where
  id : String
  username : String
  hashed_password : Digest
  role : Option String
deriving DecidableEq, Repr

/-- src/services/db_service.py `get_user_by_username`:
`users_collection.find_one({"username": username})`. -/
def get_user_by_username (store : List UserRecord) (username : String) : Option UserRecord :=
  store.find? (fun u => u.username == username)

/-- src/services/db_service.py `insert_user`: inserts the record; the
unique index on `username` makes the insert raise on a duplicate
(re-raised by `insert_user`), embedded as `Except.error`. -/
def insert_user (store : List UserRecord) (newId : String) (username : String)
    (hashed_password : Digest) (role : String) : Except String (String × List UserRecord) :=
  if (store.find? (fun u => u.username == username)).isSome then
    .error "E11000 duplicate key error"
  else
    .ok (newId, store ++ [⟨newId, username, hashed_password, some role⟩])

/-! ## Auth service (src/services/auth_service.py) -/

/-- The dict built by `get_user`: id, username, hashed_password, and a
role defaulted to "user" when the stored document has none. -/
structure UserDict where
  id : String
  username : String
  hashed_password : Digest
  role : String
deriving DecidableEq, Repr

/-- src/services/auth_service.py `get_user`: looks the username up in the
credential store and shapes the document, defaulting role to "user". -/
def get_user (store : List UserRecord) (username : String) : Option UserDict :=
  (get_user_by_username store username).map
    (fun u => ⟨u.id, u.username, u.hashed_password, u.role.getD "user"⟩)

/-- src/services/auth_service.py `authenticate_user`: `none` embeds the
Python `False` return. -/
def authenticate_user (store : List UserRecord) (username password : String) :
    Option UserDict :=
  match get_user store username with
  | none => none
  | some user => if verify_password password user.hashed_password then some user else none

/-! ## Token service

Modelled from the spec: token encoding/decoding is the external jose
library (`jwt.encode` / `jwt.decode`), not under src/.  Spec (§4.2): a
token is a signed, self-verifying artifact embedding subject, role and
absolute expiry; `validate` verifies signature integrity and that
current time < expiry, failing as Invalid (not a crash) on signature
mismatch, malformed structure, or expiry. -/
structure TokenClaims where
  sub : Option String
  role : Option String
  exp : Nat
deriving DecidableEq, Repr

/-- Modelled from the spec: the signature over the claims under the
shared secret (jose HMAC signing, external to src/). -/
def sign (secret : Nat) (c : TokenClaims) : Nat :=
  secret + 2 * c.exp

/-- A bearer token: claims, signature, and whether its structure is
well-formed at all (a malformed token has `wellFormed = false`). -/
structure Token where
  claims : TokenClaims
  sig : Nat
  wellFormed : Bool
deriving DecidableEq, Repr

/-- src/services/auth_service.py `create_access_token`: copies the data
claims, sets `exp = now + (expires_delta or 15 minutes)` and signs with
the shared secret (jose encoding modelled from the spec). -/
def create_access_token (secret now : Nat) (sub role : Option String)
    (expires_delta : Option Nat) : Token :=
  let exp := now + expires_delta.getD (15 * 60)
  let claims : TokenClaims := ⟨sub, role, exp⟩
  ⟨claims, sign secret claims, true⟩

/-- Modelled from the spec: `jwt.decode` (jose, external to src/):
succeeds with the claims iff the token is well-formed, its signature
verifies under the secret, and current time < expiry; otherwise fails
as Invalid (`JWTError`). -/
def jwt_decode (secret now : Nat) (t : Token) : Except Unit TokenClaims :=
  if t.wellFormed && (t.sig == sign secret t.claims) && decide (now < t.claims.exp) then
    .ok t.claims
  else
    .error ()

/-- The 401 `credentials_exception` of `get_current_user`. -/
def credentials_exception : HTTPError :=
  ⟨401, "Could not validate credentials"⟩

/-- src/services/auth_service.py `get_current_user`: decodes the bearer
token, requires a `sub` claim, then re-resolves the subject in the
credential store; any failure raises the 401 `credentials_exception`. -/
def get_current_user (secret now : Nat) (store : List UserRecord) (token : Token) :
    Except HTTPError UserDict :=
  match jwt_decode secret now token with
  | .error _ => .error credentials_exception
  | .ok payload =>
    match payload.sub with
    | none => .error credentials_exception
    | some username =>
      match get_user store username with
      | none => .error credentials_exception
      | some user => .ok user

/-- The 403 raised by `role_required`'s check. -/
def forbidden_error : HTTPError :=
  ⟨403, "You don't have sufficient permissions to perform this action"⟩

/-- src/services/auth_service.py `get_user_role`. -/
def get_user_role (user : UserDict) : String :=
  user.role

/-- src/services/auth_service.py `role_required` applied to an already
authenticated user: raises 403 unless the user's role is in
`allowed_roles`, else returns the user. -/
def role_required (allowed_roles : List String) (current_user : UserDict) :
    Except HTTPError UserDict :=
  if get_user_role current_user ∈ allowed_roles then
    .ok current_user
  else
    .error forbidden_error

/-- The allowed-role set declared statically at the
`/container/remove` call site (src/routes/container_route.py line 95). -/
def remove_container_allowed_roles : List String :=
  ["admin"]

/-! ## Auth routes (src/routes/auth_route.py) -/

/-- src/routes/auth_route.py `register`: 400 if the username is taken,
else hash the password and insert; result paired with the resulting
store state.  An insert failure (unreachable under the guard in this
sequential model) propagates as an unhandled 500. -/
def register (store : List UserRecord) (salt : Nat) (newId username password role : String) :
    Except HTTPError String × List UserRecord :=
  if (get_user_by_username store username).isSome then
    (.error ⟨400, "Username already registered"⟩, store)
  else
    match insert_user store newId username (get_password_hash salt password) role with
    | .ok (user_id, store') => (.ok user_id, store')
    | .error _ => (.error ⟨500, "Internal Server Error"⟩, store)

/-- The `/token` response: access token and token type. -/
structure TokenResponse where
  access_token : Token
  token_type : String
deriving DecidableEq, Repr

/-- src/routes/auth_route.py `login`: authenticates the form credentials;
401 "Invalid credentials" on failure, else issues a token for the user's
username and role with the configured expiry (minutes). -/
def login (store : List UserRecord) (secret now ttlMinutes : Nat) (username password : String) :
    Except HTTPError TokenResponse :=
  match authenticate_user store username password with
  | none => .error ⟨401, "Invalid credentials"⟩
  | some user =>
    .ok ⟨create_access_token secret now (some user.username) (some user.role)
          (some (ttlMinutes * 60)), "bearer"⟩

/-! ## Infrastructure Gateway (src/services/docker_service.py)

Each operation receives the outcome its external engine/subprocess call
would have as an explicit `Except EngineFault α` (or `Except String α`
for plain subprocess stderr) oracle argument. -/

/-- src/services/docker_service.py `docker_login`: catches only
`APIError`, converting it to `{"error": str(e)}`; any other engine
exception escapes uncaught. -/
def docker_login (engine : Except EngineFault Unit) : Except EngineFault GatewayOutcome :=
  match engine with
  | .ok _ => .ok (.success "Logged in to Docker Hub")
  | .error (.apiError m) => .ok (.error m)
  | .error f => .error f

/-- src/services/docker_service.py `build_image`: catches every
exception and re-raises it wrapped as `Exception("Build failed: ...")` —
it never returns an error outcome. -/
def build_image (engine : Except EngineFault (List String)) (image_name : String) :
    Except String String :=
  match engine with
  | .ok logs =>
    .ok ("Image '" ++ image_name ++ "' built successfully.\nLogs:\n" ++ String.join logs)
  | .error e => .error ("Build failed: " ++ e.msg)

/-- An observable effect performed by the clone/build pipeline. -/
inductive Step where
  | makedirs (dir : String)
  | gitClone (url path : String)
  | dockerBuild (tag path : String)
deriving DecidableEq, Repr

/-- src/services/docker_service.py `run_command`: one subprocess
attempt; `{"output": stdout}` on success, `{"error": stderr}` on a
`CalledProcessError`.  Paired with the step it executes. -/
def run_command (result : Except String String) (cmd : Step) : GatewayOutcome × List Step :=
  match result with
  | .ok stdout => (.success stdout, [cmd])
  | .error stderr => (.error stderr, [cmd])

/-- src/services/docker_service.py `clone_github_repo`: ensures the
destination directory exists, fails fast with an error outcome when the
destination path already exists, otherwise runs `git clone`.  `fs` is
the set of existing paths; `gitResult` the outcome git would have.
Result paired with the steps actually performed. -/
def clone_github_repo (fs : List String) (gitResult : Except String String)
    (github_url repo_name destination_dir : String) : GatewayOutcome × List Step :=
  let mkSteps := if destination_dir ∈ fs then [] else [Step.makedirs destination_dir]
  let destination_path := destination_dir ++ "/" ++ repo_name
  if destination_path ∈ fs then
    (.error ("Directory " ++ destination_path ++ " already exists."), mkSteps)
  else
    match gitResult with
    | .ok _ =>
      (.success ("Repository cloned to " ++ destination_path),
       mkSteps ++ [Step.gitClone github_url destination_path])
    | .error stderr =>
      (.error ("Failed to clone repository: " ++ stderr),
       mkSteps ++ [Step.gitClone github_url destination_path])

/-- src/services/docker_service.py `build_image_from_repo`: clones
first; if the clone response carries an error it is returned unchanged
and the build is never run; otherwise `docker build` runs on the cloned
path. -/
def build_image_from_repo (fs : List String) (gitResult buildResult : Except String String)
    (github_url image_name repo_name : String) : GatewayOutcome × List Step :=
  let cloned := clone_github_repo fs gitResult github_url repo_name "/home/ubuntu"
  match cloned.1 with
  | .error e => (.error e, cloned.2)
  | .success _ =>
    let destination_dir := "/home/ubuntu" ++ "/" ++ repo_name
    let built := run_command buildResult (Step.dockerBuild image_name destination_dir)
    (built.1, cloned.2 ++ built.2)

/-- Python `s.split(c)` for a one-character separator, on the character
list of the string: splits at every occurrence, keeping empty pieces;
always returns at least one piece. -/
def pySplitChar (c : Char) : List Char → List (List Char)
  | [] => [[]]
  | x :: xs =>
    if x = c then [] :: pySplitChar c xs
    else
      match pySplitChar c xs with
      | [] => [[x]]
      | y :: ys => (x :: y) :: ys

/-- The suffix of `s` after the last occurrence of `c`; all of `s` when
`c` does not occur.  (Spec-side characterization of `split(c)[-1]`.) -/
def afterLast (c : Char) : List Char → List Char
  | [] => []
  | x :: xs => if c ∈ xs then afterLast c xs else if x = c then xs else x :: xs

/-- src/services/docker_service.py `push_image`: catches every
exception and re-raises it wrapped as `Exception("Push failed: ...")`. -/
def push_image (engine : Except EngineFault String)
    (local_image_name repository_name : String) : Except String String :=
  match engine with
  | .ok response =>
    .ok ("Image '" ++ local_image_name ++ "' pushed as '" ++ repository_name ++
         "' to Docker Hub.\nResponse:\n" ++ response)
  | .error e => .error ("Push failed: " ++ e.msg)

/-- src/services/docker_service.py `pull_image`: builds
`full_image_name = repository_name + ":" + image_name.split(":")[-1]`
and pulls it; only `APIError` is caught.  The name actually requested
from the engine is returned alongside the result. -/
def pull_image (engine : String → Except EngineFault Unit)
    (image_name repository_name : String) :
    Except EngineFault GatewayOutcome × String :=
  let full_image_name :=
    repository_name ++ ":" ++ String.mk ((pySplitChar ':' image_name.data).getLastD [])
  (match engine full_image_name with
   | .ok _ => .ok (.success ("Image '" ++ full_image_name ++ "' pulled successfully"))
   | .error (.apiError m) => .ok (.error m)
   | .error f => .error f,
   full_image_name)

/-- src/services/docker_service.py `delete_image`: catches
`ImageNotFound` and `APIError`; anything else escapes. -/
def delete_image (engine : Except EngineFault Unit) (image_name : String) :
    Except EngineFault GatewayOutcome :=
  match engine with
  | .ok _ => .ok (.success ("Image " ++ image_name ++ " removed"))
  | .error (.imageNotFound _) => .ok (.error ("Image " ++ image_name ++ " not found"))
  | .error (.apiError e) => .ok (.error e)
  | .error f => .error f

/-- The success dict of `get_logs`: container name and log lines. -/
structure LogsResult where
  container : String
  logs : List String
deriving DecidableEq, Repr

/-- src/services/docker_service.py `get_logs`: catches every exception
and re-raises it wrapped — it never returns an error outcome. -/
def get_logs (engine : Except EngineFault (List String)) (container_name : String) :
    Except String LogsResult :=
  match engine with
  | .ok log_lines => .ok ⟨container_name, log_lines⟩
  | .error e =>
    .error ("Failed to get logs for container '" ++ container_name ++ "': " ++ e.msg)

/-- src/services/docker_service.py `docker_ps`: catches every exception
and re-raises it wrapped. -/
def docker_ps (engine : Except EngineFault (List String)) : Except String (List String) :=
  match engine with
  | .ok containers => .ok containers
  | .error e => .error ("Failed to list containers: " ++ e.msg)

/-- The argument record of a `docker_client.containers.run` call. -/
structure EngineRunArgs where
  image : String
  name : String
  ports : Option (List (String × String))
  environment : Option (List (String × String))
  volumes : Option (List (String × String × String))
deriving DecidableEq, Repr

/-- src/services/docker_service.py `run_container`: a single detached
engine run; catches every exception into an error outcome.  The args
actually passed to the engine are returned alongside the result. -/
def run_container (engine : EngineRunArgs → Except EngineFault String)
    (image_name container_name : String)
    (ports environment : Option (List (String × String)))
    (volumes : Option (List (String × String × String))) :
    GatewayOutcome × EngineRunArgs :=
  let args : EngineRunArgs := ⟨image_name, container_name, ports, environment, volumes⟩
  (match engine args with
   | .ok _ => .success ("Container '" ++ container_name ++ "' started successfully")
   | .error e => .error e.msg,
   args)

/-- src/services/docker_service.py `stop_container`: catches every
exception into an error outcome. -/
def stop_container (engine : Except EngineFault Unit) (container_name : String) :
    GatewayOutcome :=
  match engine with
  | .ok _ => .success ("Container '" ++ container_name ++ "' stopped")
  | .error e => .error e.msg

/-- src/services/docker_service.py `start_container`. -/
def start_container (engine : Except EngineFault Unit) (container_name : String) :
    GatewayOutcome :=
  match engine with
  | .ok _ => .success ("Container '" ++ container_name ++ "' started")
  | .error e => .error e.msg

/-- src/services/docker_service.py `restart_container`. -/
def restart_container (engine : Except EngineFault Unit) (container_name : String) :
    GatewayOutcome :=
  match engine with
  | .ok _ => .success ("Container '" ++ container_name ++ "' restarted")
  | .error e => .error e.msg

/-- src/services/docker_service.py `remove_container`. -/
def remove_container (engine : Except EngineFault Unit) (container_name : String) :
    GatewayOutcome :=
  match engine with
  | .ok _ => .success ("Container '" ++ container_name ++ "' removed")
  | .error e => .error e.msg

/-- src/services/docker_service.py `create_volume`. -/
def create_volume (engine : Except EngineFault Unit) (volume_name : String) :
    GatewayOutcome :=
  match engine with
  | .ok _ => .success ("Volume '" ++ volume_name ++ "' created")
  | .error e => .error e.msg

/-- src/services/docker_service.py `delete_volume`. -/
def delete_volume (engine : Except EngineFault Unit) (volume_name : String) :
    GatewayOutcome :=
  match engine with
  | .ok _ => .success ("Volume '" ++ volume_name ++ "' deleted")
  | .error e => .error e.msg

/-- The result of `list_volumes`: the volume list (name and driver per
volume) on success, or the `{"error": msg}` dict. -/
inductive VolumesResult where
  | ok (volumes : List (String × Option String))
  | error (message : String)
deriving DecidableEq, Repr

/-- src/services/docker_service.py `list_volumes`: catches every
exception into an error outcome. -/
def list_volumes (engine : Except EngineFault (List (String × Option String))) :
    VolumesResult :=
  match engine with
  | .ok volumes => .ok volumes
  | .error e => .error e.msg

/-- An exception arising from the cluster client, tagged with the
exception class the `except` clauses discriminate on:
`client.exceptions.ApiException` (carrying its reason) or anything
else. -/
inductive ClusterFault where
  | apiException (reason : String)
  | otherError (msg : String)
deriving DecidableEq, Repr

/-- The success dict of `get_logs_with_pods`: pod name and log lines. -/
structure PodLogsResult where
  pod : String
  logs : List String
deriving DecidableEq, Repr

/-- src/services/docker_service.py `get_logs_with_pods`: catches the
cluster fault only to re-raise it wrapped ("Kubernetes API error: ..."
for an ApiException, "Unexpected error: ..." otherwise) — it never
returns an error outcome. -/
def get_logs_with_pods (cluster : Except ClusterFault (List String)) (pod_name : String) :
    Except String PodLogsResult :=
  match cluster with
  | .ok log_lines => .ok ⟨pod_name, log_lines⟩
  | .error (.apiException reason) => .error ("Kubernetes API error: " ++ reason)
  | .error (.otherError m) => .error ("Unexpected error: " ++ m)

/-- src/services/docker_service.py `run_pod`: submits a one-container
pod named `container_name + "-" + (8-char uuid4 prefix)` to the
cluster; like `get_logs_with_pods` it catches the cluster fault only to
re-raise it wrapped.  The uuid suffix is passed in as an oracle; the
chosen pod name is returned with the success outcome. -/
def run_pod (cluster : Except ClusterFault Unit)
    (image_name container_name suffix : String) :
    Except String (GatewayOutcome × String) :=
  let pod_name := container_name ++ "-" ++ suffix
  match cluster with
  | .ok _ =>
    .ok (.success ("Pod '" ++ pod_name ++ "' created successfully using image '" ++
          image_name ++ "'"), pod_name)
  | .error (.apiException reason) => .error ("Kubernetes API error: " ++ reason)
  | .error (.otherError m) => .error ("Unexpected error: " ++ m)

/-! ## Container route (src/routes/container_route.py) -/

/-- src/schemas/docker_schema.py `ContainerRunRequest`: the payload
schema of `/container/run`; `volume_name` and `mount_path` are accepted
fields. -/
structure ContainerRunRequest where
  image_name : String
  container_name : String
  ports : Option (List (String × String))
  environment : Option (List (String × String))
  volume_name : Option String
  mount_path : Option String
deriving DecidableEq, Repr

/-- src/routes/container_route.py `run_container`: forwards only
`image_name`, `container_name`, `ports` and `environment` to the
service; the service's `volumes` parameter keeps its `None` default. -/
def route_run_container (engine : EngineRunArgs → Except EngineFault String)
    (payload : ContainerRunRequest) : GatewayOutcome × EngineRunArgs :=
  run_container engine payload.image_name payload.container_name
    payload.ports payload.environment none

/-! ## Helper lemmas -/

theorem pySplitChar_ne_nil (c : Char) (s : List Char) : pySplitChar c s ≠ [] := by
  cases s with
  | nil => simp [pySplitChar]
  | cons x xs =>
    simp only [pySplitChar]
    split
    · simp
    · split <;> simp

theorem pySplitChar_of_not_mem (c : Char) (s : List Char) (h : c ∉ s) :
    pySplitChar c s = [s] := by
  induction s with
  | nil => rfl
  | cons x xs ih =>
    have hx : ¬(x = c) := fun hxc => h (hxc ▸ List.mem_cons_self x xs)
    have hxs : c ∉ xs := fun hm => h (List.mem_cons_of_mem x hm)
    simp only [pySplitChar, if_neg hx]
    rw [ih hxs]

theorem afterLast_of_not_mem (c : Char) (s : List Char) (h : c ∉ s) :
    afterLast c s = s := by
  cases s with
  | nil => rfl
  | cons x xs =>
    have hx : ¬(x = c) := fun hxc => h (hxc ▸ List.mem_cons_self x xs)
    have hxs : c ∉ xs := fun hm => h (List.mem_cons_of_mem x hm)
    simp [afterLast, hxs, hx]

theorem pySplitChar_length_of_mem (c : Char) (s : List Char) (h : c ∈ s) :
    2 ≤ (pySplitChar c s).length := by
  induction s with
  | nil => cases h
  | cons x xs ih =>
    by_cases hx : x = c
    · have hne := pySplitChar_ne_nil c xs
      have hlen : 0 < (pySplitChar c xs).length := List.length_pos.mpr hne
      simp only [pySplitChar, if_pos hx, List.length_cons]
      omega
    · have hmem : c ∈ xs := by
        cases List.mem_cons.mp h with
        | inl h' => exact absurd h'.symm hx
        | inr h' => exact h'
      have h2 := ih hmem
      simp only [pySplitChar, if_neg hx]
      cases hsp : pySplitChar c xs with
      | nil => exact absurd hsp (pySplitChar_ne_nil c xs)
      | cons y ys =>
        rw [hsp] at h2
        simp only [List.length_cons] at h2 ⊢
        omega

theorem pySplitChar_getLastD (c : Char) (s : List Char) :
    (pySplitChar c s).getLastD [] = afterLast c s := by
  induction s with
  | nil => rfl
  | cons x xs ih =>
    by_cases hx : x = c
    · rw [show pySplitChar c (x :: xs) = [] :: pySplitChar c xs by
        simp only [pySplitChar, if_pos hx]]
      rw [List.getLastD_cons, ih]
      by_cases hm : c ∈ xs
      · simp [afterLast, hm, hx]
      · simp [afterLast, hm, hx, afterLast_of_not_mem c xs hm]
    · by_cases hm : c ∈ xs
      · cases hsp : pySplitChar c xs with
        | nil => exact absurd hsp (pySplitChar_ne_nil c xs)
        | cons y ys =>
          cases ys with
          | nil =>
            exfalso
            have h2 := pySplitChar_length_of_mem c xs hm
            rw [hsp] at h2
            simp at h2
          | cons z zs =>
            rw [show pySplitChar c (x :: xs) = (x :: y) :: z :: zs by
              simp only [pySplitChar, if_neg hx]
              rw [hsp]]
            rw [hsp] at ih
            rw [List.getLastD_cons, List.getLastD_cons] at ih ⊢
            rw [ih]
            simp [afterLast, hm]
      · rw [show pySplitChar c (x :: xs) = [x :: xs] by
          simp only [pySplitChar, if_neg hx]
          rw [pySplitChar_of_not_mem c xs hm]]
        have : c ∉ x :: xs := by
          intro hc
          cases List.mem_cons.mp hc with
          | inl h' => exact hx h'.symm
          | inr h' => exact hm h'
        rw [afterLast_of_not_mem c (x :: xs) this]
        rfl

theorem clone_github_repo_git_fault_hasError (fs : List String)
    (stderr github_url repo_name destination_dir : String) :
    ((clone_github_repo fs (.error stderr) github_url repo_name destination_dir).1).hasError
      = true := by
  unfold clone_github_repo
  by_cases h : (destination_dir ++ "/" ++ repo_name) ∈ fs <;>
    simp [h, GatewayOutcome.hasError]

theorem build_image_from_repo_build_fault_hasError (fs : List String)
    (gitResult : Except String String) (stderr github_url image_name repo_name : String) :
    ((build_image_from_repo fs gitResult (.error stderr)
        github_url image_name repo_name).1).hasError = true := by
  simp only [build_image_from_repo]
  cases hres : (clone_github_repo fs gitResult github_url repo_name "/home/ubuntu").1 with
  | success m => simp [run_command, GatewayOutcome.hasError]
  | error m => simp [GatewayOutcome.hasError]

theorem build_image_from_repo_clone_fault_hasError (fs : List String)
    (buildResult : Except String String) (stderr github_url image_name repo_name : String) :
    ((build_image_from_repo fs (.error stderr) buildResult
        github_url image_name repo_name).1).hasError = true := by
  simp only [build_image_from_repo]
  cases hres : (clone_github_repo fs (.error stderr) github_url repo_name "/home/ubuntu").1 with
  | success m =>
    exfalso
    have h := clone_github_repo_git_fault_hasError fs stderr github_url repo_name "/home/ubuntu"
    rw [hres] at h
    simp [GatewayOutcome.hasError] at h
  | error m => simp [GatewayOutcome.hasError]

/-! ## Claim theorems -/

/-- C1 (counterexample): the claim that every gateway operation catches
every engine fault and returns an Outcome with a populated error field
is false: `build_image` on an engine fault re-raises a wrapped
exception (embedded as `Except.error`) past the gateway boundary
instead of returning an Outcome. -/
theorem C1_counterexample :
    build_image (Except.error (EngineFault.otherError "boom")) "web"
      = Except.error "Build failed: boom"
  ∧ (build_image (Except.error (EngineFault.otherError "boom")) "web").isOk = false :=
  ⟨rfl, rfl⟩

/-- C1 (amended): the gateway operations whose try/except catches
broadly (`run/stop/start/restart/remove_container`,
`create/list/delete_volume`, `run_command`, `clone_github_repo`,
`build_image_from_repo`) return exactly one Outcome with a populated
error field on an engine fault, and `docker_login`, `pull_image` and
`delete_image` do so for the engine API errors they catch; but
`build_image`, `push_image`, `get_logs`, `get_logs_with_pods`,
`docker_ps` and `run_pod` catch the fault only to re-raise it wrapped
in a new exception past the gateway boundary into the handler layer. -/
theorem C1_amended (e : EngineFault) (name : String)
    (ports env : Option (List (String × String)))
    (vols : Option (List (String × String × String)))
    (fs : List String) (gitResult buildResult : Except String String) (cmd : Step) :
    stop_container (.error e) name = .error e.msg
  ∧ start_container (.error e) name = .error e.msg
  ∧ restart_container (.error e) name = .error e.msg
  ∧ remove_container (.error e) name = .error e.msg
  ∧ create_volume (.error e) name = .error e.msg
  ∧ delete_volume (.error e) name = .error e.msg
  ∧ list_volumes (.error e) = .error e.msg
  ∧ (run_container (fun _ => .error e) name name ports env vols).1 = .error e.msg
  ∧ (run_command (.error e.msg) cmd).1 = .error e.msg
  ∧ ((clone_github_repo fs (.error e.msg) name name name).1).hasError = true
  ∧ ((build_image_from_repo fs (.error e.msg) buildResult name name name).1).hasError = true
  ∧ ((build_image_from_repo fs gitResult (.error e.msg) name name name).1).hasError = true
  ∧ docker_login (.error (.apiError e.msg)) = .ok (.error e.msg)
  ∧ (pull_image (fun _ => .error (.apiError e.msg)) name name).1 = .ok (.error e.msg)
  ∧ delete_image (.error (.apiError e.msg)) name = .ok (.error e.msg)
  ∧ delete_image (.error (.imageNotFound e.msg)) name
      = .ok (.error ("Image " ++ name ++ " not found"))
  ∧ build_image (.error e) name = .error ("Build failed: " ++ e.msg)
  ∧ push_image (.error e) name name = .error ("Push failed: " ++ e.msg)
  ∧ get_logs (.error e) name
      = .error ("Failed to get logs for container '" ++ name ++ "': " ++ e.msg)
  ∧ docker_ps (.error e) = .error ("Failed to list containers: " ++ e.msg)
  ∧ get_logs_with_pods (.error (.apiException e.msg)) name
      = .error ("Kubernetes API error: " ++ e.msg)
  ∧ get_logs_with_pods (.error (.otherError e.msg)) name
      = .error ("Unexpected error: " ++ e.msg)
  ∧ run_pod (.error (.apiException e.msg)) name name name
      = .error ("Kubernetes API error: " ++ e.msg)
  ∧ run_pod (.error (.otherError e.msg)) name name name
      = .error ("Unexpected error: " ++ e.msg) :=
  ⟨rfl, rfl, rfl, rfl, rfl, rfl, rfl, rfl, rfl,
   clone_github_repo_git_fault_hasError fs e.msg name name name,
   build_image_from_repo_clone_fault_hasError fs buildResult e.msg name name name,
   build_image_from_repo_build_fault_hasError fs gitResult e.msg name name name,
   rfl, rfl, rfl, rfl, rfl, rfl, rfl, rfl, rfl, rfl, rfl, rfl⟩

/-- C2: `role_required` succeeds and returns the identity iff the
identity's role is in the allowed-role set, otherwise fails with the
403 Forbidden error; in particular a "user"-role identity against the
admin-only container-removal role set fails with 403. -/
theorem C2_role_required (u : UserDict) (allowed : List String) :
    (role_required allowed u = .ok u ↔ u.role ∈ allowed)
  ∧ (u.role ∉ allowed → role_required allowed u = .error forbidden_error)
  ∧ (u.role = "user" →
      role_required remove_container_allowed_roles u = .error forbidden_error) := by
  have hpos : u.role ∈ allowed → role_required allowed u = .ok u := by
    intro hm
    simp [role_required, get_user_role, hm]
  have hneg : u.role ∉ allowed → role_required allowed u = .error forbidden_error := by
    intro hm
    simp [role_required, get_user_role, hm]
  refine ⟨⟨?_, hpos⟩, hneg, ?_⟩
  · intro h
    by_contra hm
    rw [hneg hm] at h
    exact Except.noConfusion h
  · intro hr
    have hm : u.role ∉ remove_container_allowed_roles := by
      rw [hr]
      decide
    simp [role_required, get_user_role, hm]

/-- C2 witness: the concrete user-role identity `bob` is rejected with
403 by the container-removal role check. -/
theorem C2_role_required_witness :
    role_required ["admin"] ⟨"1", "bob", ⟨0, "pw"⟩, "user"⟩ = .error forbidden_error
  ∧ role_required remove_container_allowed_roles ⟨"1", "bob", ⟨0, "pw"⟩, "user"⟩
      = .error forbidden_error :=
  ⟨(C2_role_required ⟨"1", "bob", ⟨0, "pw"⟩, "user"⟩ ["admin"]).2.1 (by decide),
   (C2_role_required ⟨"1", "bob", ⟨0, "pw"⟩, "user"⟩ ["admin"]).2.2 rfl⟩

/-- C3: a structurally valid token (decode succeeds) whose subject is
absent from the credential store makes `get_current_user` fail with the
401 credentials exception rather than return an identity. -/
theorem C3_deleted_account (secret now : Nat) (store : List UserRecord)
    (t : Token) (s : String)
    (hok : jwt_decode secret now t = .ok t.claims)
    (hsub : t.claims.sub = some s)
    (hmiss : get_user store s = none) :
    get_current_user secret now store t = .error credentials_exception := by
  simp [get_current_user, hok, hsub, hmiss]

/-- C3 witness: a freshly issued, unexpired, correctly signed token for
subject "ghost" against an empty credential store yields 401. -/
theorem C3_deleted_account_witness :
    get_current_user 5 0 []
        (create_access_token 5 0 (some "ghost") (some "user") (some 100))
      = .error credentials_exception :=
  C3_deleted_account 5 0 []
    (create_access_token 5 0 (some "ghost") (some "user") (some 100)) "ghost"
    rfl rfl rfl

/-- C4: a token issued with ttl T at `issue` decodes successfully at
every time strictly below `issue + T`, fails as Invalid at every time
at or above `issue + T`, and any token fails as Invalid on signature
mismatch or malformed structure. -/
theorem C4_token_expiry (secret issue T now : Nat) (sub role : Option String) (t : Token) :
    (now < issue + T →
      jwt_decode secret now (create_access_token secret issue sub role (some T))
        = .ok ⟨sub, role, issue + T⟩)
  ∧ (issue + T ≤ now →
      jwt_decode secret now (create_access_token secret issue sub role (some T))
        = .error ())
  ∧ (t.sig ≠ sign secret t.claims → jwt_decode secret now t = .error ())
  ∧ (t.wellFormed = false → jwt_decode secret now t = .error ()) := by
  refine ⟨?_, ?_, ?_, ?_⟩
  · intro h
    simp [jwt_decode, create_access_token, h]
  · intro h
    simp [jwt_decode, create_access_token, Nat.not_lt.mpr h]
  · intro h
    simp [jwt_decode, h]
  · intro h
    simp [jwt_decode, h]

/-- C4 witness: at secret 5 and issue time 0 with ttl 60 the token
decodes at time 10 and is Invalid at time 60; a zeroed signature and a
malformed structure are Invalid. -/
theorem C4_token_expiry_witness :
    jwt_decode 5 10 (create_access_token 5 0 (some "alice") (some "user") (some 60))
      = .ok ⟨some "alice", some "user", 60⟩
  ∧ jwt_decode 5 60 (create_access_token 5 0 (some "alice") (some "user") (some 60))
      = .error ()
  ∧ jwt_decode 5 10 ⟨⟨some "alice", some "user", 60⟩, 0, true⟩ = .error ()
  ∧ jwt_decode 5 10 ⟨⟨some "alice", some "user", 60⟩, 125, false⟩ = .error () :=
  ⟨(C4_token_expiry 5 0 60 10 (some "alice") (some "user") ⟨⟨none, none, 0⟩, 0, true⟩).1
      (by decide),
   (C4_token_expiry 5 0 60 60 (some "alice") (some "user") ⟨⟨none, none, 0⟩, 0, true⟩).2.1
      (by decide),
   (C4_token_expiry 5 0 60 10 (some "alice") (some "user")
      ⟨⟨some "alice", some "user", 60⟩, 0, true⟩).2.2.1 (by decide),
   (C4_token_expiry 5 0 60 10 (some "alice") (some "user")
      ⟨⟨some "alice", some "user", 60⟩, 125, false⟩).2.2.2 rfl⟩

theorem clone_no_build_step (fs : List String) (gitResult : Except String String)
    (github_url repo_name destination_dir tag path : String) :
    Step.dockerBuild tag path
      ∉ (clone_github_repo fs gitResult github_url repo_name destination_dir).2 := by
  unfold clone_github_repo
  by_cases h1 : destination_dir ∈ fs <;>
    by_cases h2 : (destination_dir ++ "/" ++ repo_name) ∈ fs <;>
      cases gitResult <;> simp [h1, h2]

/-- C5: whenever the clone step of `build_image_from_repo` fails — in
particular whenever the destination clone directory already exists —
the clone's error is returned unchanged and no docker-build step is
ever performed. -/
theorem C5_clone_fail_no_build (fs : List String)
    (gitResult buildResult : Except String String)
    (github_url image_name repo_name : String) :
    (∀ e, (clone_github_repo fs gitResult github_url repo_name "/home/ubuntu").1 = .error e →
      build_image_from_repo fs gitResult buildResult github_url image_name repo_name
        = (.error e, (clone_github_repo fs gitResult github_url repo_name "/home/ubuntu").2))
  ∧ (("/home/ubuntu" ++ "/" ++ repo_name) ∈ fs →
      (clone_github_repo fs gitResult github_url repo_name "/home/ubuntu").1
        = .error ("Directory " ++ ("/home/ubuntu" ++ "/" ++ repo_name) ++ " already exists."))
  ∧ (∀ tag path e,
      (clone_github_repo fs gitResult github_url repo_name "/home/ubuntu").1 = .error e →
      Step.dockerBuild tag path
        ∉ (build_image_from_repo fs gitResult buildResult github_url image_name repo_name).2) := by
  refine ⟨?_, ?_, ?_⟩
  · intro e he
    simp [build_image_from_repo, he]
  · intro hmem
    have hmem' : "/home/ubuntu/" ++ repo_name ∈ fs := hmem
    simp [clone_github_repo, hmem']
  · intro tag path e he
    simp only [build_image_from_repo, he]
    exact clone_no_build_step fs gitResult github_url repo_name "/home/ubuntu" tag path

/-- C5 witness: with `/home/ubuntu/app` already existing, the pipeline
returns the already-exists clone error unchanged and its step trace
holds no docker-build step. -/
theorem C5_clone_fail_no_build_witness :
    build_image_from_repo ["/home/ubuntu/app"] (.ok "") (.ok "done") "https://x" "img" "app"
      = (.error "Directory /home/ubuntu/app already exists.", [Step.makedirs "/home/ubuntu"])
  ∧ Step.dockerBuild "img" "/home/ubuntu/app"
      ∉ (build_image_from_repo ["/home/ubuntu/app"] (.ok "") (.ok "done")
          "https://x" "img" "app").2 :=
  ⟨(C5_clone_fail_no_build ["/home/ubuntu/app"] (.ok "") (.ok "done") "https://x" "img" "app").1
      "Directory /home/ubuntu/app already exists." (by decide),
   (C5_clone_fail_no_build ["/home/ubuntu/app"] (.ok "") (.ok "done") "https://x" "img" "app").2.2
      "img" "/home/ubuntu/app" "Directory /home/ubuntu/app already exists." (by decide)⟩

/-- C6: registering a username that already exists fails with the 400
duplicate error and leaves the store — in particular the existing
record with its hash and role — unchanged. -/
theorem C6_duplicate_register (store : List UserRecord) (salt : Nat)
    (newId username password role : String) (r : UserRecord)
    (hex : get_user_by_username store username = some r) :
    register store salt newId username password role
      = (.error ⟨400, "Username already registered"⟩, store)
  ∧ get_user_by_username (register store salt newId username password role).2 username
      = some r := by
  constructor
  · simp [register, hex]
  · simp [register, hex]

/-- C6 witness: re-registering "alice" against a store that already
holds her record fails with 400 and leaves her record in place. -/
theorem C6_duplicate_register_witness :
    register [⟨"1", "alice", ⟨0, "pw"⟩, some "user"⟩] 7 "2" "alice" "other" "admin"
      = (.error ⟨400, "Username already registered"⟩,
         [⟨"1", "alice", ⟨0, "pw"⟩, some "user"⟩])
  ∧ get_user_by_username
      (register [⟨"1", "alice", ⟨0, "pw"⟩, some "user"⟩] 7 "2" "alice" "other" "admin").2
      "alice" = some ⟨"1", "alice", ⟨0, "pw"⟩, some "user"⟩ :=
  C6_duplicate_register [⟨"1", "alice", ⟨0, "pw"⟩, some "user"⟩] 7 "2" "alice" "other"
    "admin" ⟨"1", "alice", ⟨0, "pw"⟩, some "user"⟩ rfl

/-- C7: a login whose username is unregistered and a login whose
username is registered but whose password fails verification produce
the identical 401 "Invalid credentials" failure: the response never
reveals username existence. -/
theorem C7_login_indistinguishable (s1 s2 : List UserRecord) (username password : String)
    (u : UserDict) (secret now ttl : Nat)
    (h1 : get_user s1 username = none)
    (h2 : get_user s2 username = some u)
    (h3 : verify_password password u.hashed_password = false) :
    login s1 secret now ttl username password = .error ⟨401, "Invalid credentials"⟩
  ∧ login s2 secret now ttl username password = .error ⟨401, "Invalid credentials"⟩
  ∧ login s1 secret now ttl username password
      = login s2 secret now ttl username password := by
  have e1 : login s1 secret now ttl username password
      = .error ⟨401, "Invalid credentials"⟩ := by
    simp [login, authenticate_user, h1]
  have e2 : login s2 secret now ttl username password
      = .error ⟨401, "Invalid credentials"⟩ := by
    simp [login, authenticate_user, h2, h3]
  exact ⟨e1, e2, e1.trans e2.symm⟩

/-- C7 witness: "bob" unregistered vs "bob" registered with a
non-matching password: both logins return the same 401. -/
theorem C7_login_indistinguishable_witness :
    login [] 5 0 30 "bob" "wrong" = .error ⟨401, "Invalid credentials"⟩
  ∧ login [⟨"1", "bob", ⟨0, "pw"⟩, some "user"⟩] 5 0 30 "bob" "wrong"
      = .error ⟨401, "Invalid credentials"⟩
  ∧ login [] 5 0 30 "bob" "wrong"
      = login [⟨"1", "bob", ⟨0, "pw"⟩, some "user"⟩] 5 0 30 "bob" "wrong" :=
  C7_login_indistinguishable [] [⟨"1", "bob", ⟨0, "pw"⟩, some "user"⟩] "bob" "wrong"
    ⟨"1", "bob", ⟨0, "pw"⟩, "user"⟩ 5 0 30 rfl rfl rfl

/-- C8: verification accepts the digest of the same password and
rejects the digest under any distinct password. -/
theorem C8_hash_verify (salt : Nat) (p q : String) (hne : q ≠ p) :
    verify_password p (get_password_hash salt p) = true
  ∧ verify_password q (get_password_hash salt p) = false := by
  constructor
  · simp [verify_password, get_password_hash]
  · simp [verify_password, get_password_hash, hne]

/-- C8 witness: at a concrete salt, "pw123" verifies against its own
digest and "wrong" does not. -/
theorem C8_hash_verify_witness :
    verify_password "pw123" (get_password_hash 3 "pw123") = true
  ∧ verify_password "wrong" (get_password_hash 3 "pw123") = false :=
  C8_hash_verify 3 "pw123" "wrong" (by decide)

/-- C9: `pull_image` requests from the engine exactly
`repository_name ++ ":" ++ (suffix of image_name after its last colon)`,
discarding the repository portion of `image_name`; with no colon in
`image_name` the whole of `image_name` is the tag. -/
theorem C9_pull_image_tag (engine : String → Except EngineFault Unit)
    (image_name repository_name : String) :
    (pull_image engine image_name repository_name).2
      = repository_name ++ ":" ++ String.mk (afterLast ':' image_name.data)
  ∧ (':' ∉ image_name.data →
      (pull_image engine image_name repository_name).2
        = repository_name ++ ":" ++ image_name) := by
  have key : (pull_image engine image_name repository_name).2
      = repository_name ++ ":" ++ String.mk ((pySplitChar ':' image_name.data).getLastD []) :=
    rfl
  constructor
  · rw [key, pySplitChar_getLastD]
  · intro h
    rw [key, pySplitChar_getLastD, afterLast_of_not_mem ':' image_name.data h]

/-- C9 witness: pulling "docker.io/library/nginx:1.25" into repository
"me/app" requests "me/app:1.25"; pulling colon-free "nginx" requests
"me/app:nginx". -/
theorem C9_pull_image_tag_witness :
    (pull_image (fun _ => Except.ok ()) "docker.io/library/nginx:1.25" "me/app").2
      = "me/app" ++ ":" ++ String.mk (afterLast ':' "docker.io/library/nginx:1.25".data)
  ∧ (pull_image (fun _ => Except.ok ()) "nginx" "me/app").2 = "me/app" ++ ":" ++ "nginx" :=
  ⟨(C9_pull_image_tag (fun _ => Except.ok ()) "docker.io/library/nginx:1.25" "me/app").1,
   (C9_pull_image_tag (fun _ => Except.ok ()) "nginx" "me/app").2 (by decide)⟩

/-- C10: the run-container route starts the container from exactly the
payload's image_name, container_name, ports and environment with the
engine's volumes argument left `None`; two payloads agreeing on those
four fields — whatever their volume_name and mount_path — produce the
identical engine call and response. -/
theorem C10_run_container_no_volumes (engine : EngineRunArgs → Except EngineFault String)
    (p q : ContainerRunRequest)
    (himg : q.image_name = p.image_name)
    (hname : q.container_name = p.container_name)
    (hports : q.ports = p.ports)
    (henv : q.environment = p.environment) :
    (route_run_container engine p).2
      = ⟨p.image_name, p.container_name, p.ports, p.environment, none⟩
  ∧ (route_run_container engine p).2.volumes = none
  ∧ route_run_container engine q = route_run_container engine p := by
  refine ⟨rfl, rfl, ?_⟩
  simp [route_run_container, himg, hname, hports, henv]

/-- C10 witness: a payload carrying volume_name "vol" and mount_path
"/data" produces the same run call as one carrying neither. -/
theorem C10_run_container_no_volumes_witness :
    (route_run_container (fun _ => Except.ok "cid")
        ⟨"nginx", "web", none, none, none, none⟩).2.volumes = none
  ∧ route_run_container (fun _ => Except.ok "cid")
        ⟨"nginx", "web", none, none, some "vol", some "/data"⟩
      = route_run_container (fun _ => Except.ok "cid")
        ⟨"nginx", "web", none, none, none, none⟩ :=
  ⟨(C10_run_container_no_volumes (fun _ => Except.ok "cid")
      ⟨"nginx", "web", none, none, none, none⟩
      ⟨"nginx", "web", none, none, some "vol", some "/data"⟩ rfl rfl rfl rfl).2.1,
   (C10_run_container_no_volumes (fun _ => Except.ok "cid")
      ⟨"nginx", "web", none, none, none, none⟩
      ⟨"nginx", "web", none, none, some "vol", some "/data"⟩ rfl rfl rfl rfl).2.2⟩

end UdemyActions
